import Mathlib

/-!
Shallow embedding of the data-quality / freshness / schema check engine of
`dagster-platform/platform_core/asset_checks` (files `data_quality_checks.py`,
`freshness_checks.py`, `schema_checks.py`).

Modelling conventions:
* A pandas `DataFrame` is a list of named, dtyped columns of equal length.
* Cell values are a tagged union (`Value`); `null` stands for NaN/None/NaT.
* Timestamps are epoch minutes (`Int`); `pd.to_datetime` on a column is
  modelled as a cast of the column dtype to `datetime64` (cell values are
  modelled as already parsed), `.dt.hour` / `.dt.weekday` are derived
  arithmetically (epoch day 0, 1970-01-01, is a Thursday, weekday index 3
  with Monday = 0).
* Every check returns `CheckResult × DataFrame`: the second component is the
  state of the dataframe of the caller after the call, making the in-place
  mutations of the Python code (`df[col] = pd.to_datetime(df[col])`,
  the stored derived hour column) observable.  Checks whose source performs no
  assignment return the input dataframe unchanged.
* `AssetCheckResult(passed=True, ...)` constructions that omit `severity`
  get the dagster default severity, which is ERROR.
* Python floats are modelled as rationals (`ℚ`); float formatting in
  description strings is modelled by a simple rational renderer.
* Accessing `df[c]` for a column `c` that is absent raises `KeyError` in
  pandas; the model totalises this as the empty column (resp. leaves the
  dataframe unchanged for writes); theorems about such checks carry the
  presence of the column as a hypothesis.
-/

/-- Cell value of a dataframe column; `null` models NaN/None/NaT. -/
inductive Value where
  | null : Value
  | num (q : ℚ) : Value
  | str (s : String) : Value
  | boolean (b : Bool) : Value
  | time (t : Int) : Value
deriving DecidableEq, Repr

/-- Column dtype, as pandas reports it via `str(df[col].dtype)`. -/
inductive Dtype where
  | int64 | float64 | object | datetime64 | boolDt
deriving DecidableEq, Repr

/-- The string `str(dtype)` pandas would print for the dtype. -/
def Dtype.toStr : Dtype → String
  | .int64 => "int64"
  | .float64 => "float64"
  | .object => "object"
  | .datetime64 => "datetime64[ns]"
  | .boolDt => "bool"

/-- One named dataframe column. -/
structure Column where
  name : String
  dtype : Dtype
  values : List Value
deriving DecidableEq, Repr

/-- A pandas DataFrame: ordered named columns of equal length. -/
structure DataFrame where
  cols : List Column
deriving DecidableEq, Repr

/-- Models `df.columns.tolist()`. -/
def DataFrame.names (df : DataFrame) : List String :=
  df.cols.map Column.name

/-- Models `len(df)`: the row count (length of the first column; 0 if no columns). -/
def DataFrame.numRows (df : DataFrame) : Nat :=
  match df.cols with
  | [] => 0
  | c :: _ => c.values.length

/-- Models `df[c]` lookup of a column by name (first match). -/
def DataFrame.getCol (df : DataFrame) (name : String) : Option Column :=
  df.cols.find? (fun c => c.name = name)

/-- The cell values of `df[c]` (empty when the column is absent; the source
raises `KeyError` there). -/
def DataFrame.colVals (df : DataFrame) (name : String) : List Value :=
  match df.getCol name with
  | some c => c.values
  | none => []

/-- Models `c in df.columns`. -/
def DataFrame.hasCol (df : DataFrame) (name : String) : Bool :=
  df.cols.any (fun c => c.name = name)

/-- Models `df[name] = ...` column assignment: replaces an existing column in place
(keeping its position) or appends a new one at the end. -/
def DataFrame.setCol (df : DataFrame) (name : String) (dt : Dtype)
    (vals : List Value) : DataFrame :=
  if df.hasCol name then
    ⟨df.cols.map (fun c => if c.name = name then ⟨name, dt, vals⟩ else c)⟩
  else
    ⟨df.cols ++ [⟨name, dt, vals⟩]⟩

/-- Severity enum of the result model (the dagster `AssetCheckSeverity` plus
the spec's observational INFO level, which no code path uses). -/
inductive Severity where
  | info | warn | error
deriving DecidableEq, Repr

/-- Schema spec: optional `required_columns`, `column_types`,
`allowed_columns`, `column_order` keys of the mapping passed to
`validate_schema`. -/
structure SchemaSpec where
  required_columns : Option (List String) := none
  column_types : Option (List (String × String)) := none
  allowed_columns : Option (List String) := none
  column_order : Option (List String) := none
deriving DecidableEq, Repr

/-- A metadata value (`dagster.MetadataValue`); the `json` payloads are
split by shape. -/
inductive MetaVal where
  | int (i : Int)
  | float (q : ℚ)
  | text (s : String)
  | jsonStrs (l : List String)
  | jsonVals (l : List Value)
  | jsonDictNat (l : List (String × Nat))
  | jsonDictStr (l : List (String × String))
  | jsonSchema (s : SchemaSpec)
  | jsonSnapshot (cols : List String) (types : List (String × String))
      (rows ncols : Nat)
  | noneV
deriving DecidableEq, Repr

/-- Models `AssetCheckResult`. -/
structure CheckResult where
  passed : Bool
  severity : Severity
  description : String
  metadata : List (String × MetaVal)
deriving DecidableEq, Repr

/-- Metadata lookup by key. -/
def CheckResult.getMeta (r : CheckResult) (k : String) : Option MetaVal :=
  (r.metadata.find? (fun p => p.1 = k)).map Prod.snd

/-- Simple rational renderer used for floats interpolated into description
strings. -/
def qStr (q : ℚ) : String :=
  toString q.num ++ "/" ++ toString q.den

/-- Python `repr` of a cell value (only its injectivity per shape matters). -/
def valueStr : Value → String
  | .null => "nan"
  | .num q => qStr q
  | .str s => "\x27" ++ s ++ "\x27"
  | .boolean b => toString b
  | .time t => "ts(" ++ toString t ++ ")"

/-- Python `repr` of a list of cell values. -/
def valueListStr (l : List Value) : String :=
  "[" ++ String.intercalate ", " (l.map valueStr) ++ "]"

/-- Number of null cells in a column. -/
def nullCount (vals : List Value) : Nat :=
  vals.count Value.null

/-- Models `check_no_nulls(df, columns)` of `data_quality_checks.py`. -/
def check_no_nulls (df : DataFrame) (columns : List String) :
    CheckResult × DataFrame :=
  let null_counts : List (String × Nat) :=
    columns.map (fun c => (c, nullCount (df.colVals c)))
  let failed_columns : List String :=
    (null_counts.filter (fun p => p.2 > 0)).map Prod.fst
  if failed_columns ≠ [] then
    (⟨false, .error,
      "Found null values in columns: " ++ String.intercalate ", " failed_columns,
      [("failed_columns", .jsonStrs failed_columns),
       ("null_counts", .jsonDictNat null_counts)]⟩, df)
  else
    (⟨true, .error,
      "No null values found in " ++ toString columns.length ++ " columns",
      [("checked_columns", .jsonStrs columns),
       ("total_rows", .int df.numRows)]⟩, df)

/-- The per-position flags of `Series.duplicated()`: an entry is flagged
when an equal value occurs earlier (the `seen` accumulator starts empty). -/
def dupFlags (seen : List Value) : List Value → List Bool
  | [] => []
  | v :: vs => (decide (v ∈ seen)) :: dupFlags (v :: seen) vs

/-- Models `df[column].duplicated().sum()`. -/
def dupCount (vals : List Value) : Nat :=
  (dupFlags [] vals).count true

/-- Models `check_unique_values(df, columns)` of `data_quality_checks.py`. -/
def check_unique_values (df : DataFrame) (columns : List String) :
    CheckResult × DataFrame :=
  let duplicate_counts : List (String × Nat) :=
    columns.map (fun c => (c, dupCount (df.colVals c)))
  let failed_columns : List String :=
    (duplicate_counts.filter (fun p => p.2 > 0)).map Prod.fst
  if failed_columns ≠ [] then
    (⟨false, .error,
      "Found duplicate values in columns: " ++ String.intercalate ", " failed_columns,
      [("failed_columns", .jsonStrs failed_columns),
       ("duplicate_counts", .jsonDictNat duplicate_counts)]⟩, df)
  else
    (⟨true, .error,
      "All values unique in " ++ toString columns.length ++ " columns",
      [("checked_columns", .jsonStrs columns),
       ("total_rows", .int df.numRows)]⟩, df)

/-- Python truthiness of an optional integer (`if max_rows:`): `None` and
`0` are falsy. -/
def pyTruthy : Option Int → Bool
  | none => false
  | some m => m ≠ 0

/-- Models `check_row_count(df, min_rows, max_rows)` of `data_quality_checks.py`.
Note the source guards the upper bound with `if max_rows and ...`, i.e.
Python truthiness, so `max_rows = 0` behaves like an absent bound. -/
def check_row_count (df : DataFrame) (min_rows : Int := 1)
    (max_rows : Option Int := none) : CheckResult × DataFrame :=
  let row_count : Int := df.numRows
  if row_count < min_rows then
    (⟨false, .error,
      "Row count " ++ toString row_count ++ " below minimum " ++ toString min_rows,
      [("row_count", .int row_count),
       ("min_rows", .int min_rows),
       ("max_rows", if pyTruthy max_rows then .int (max_rows.getD 0) else .noneV)]⟩,
     df)
  else if pyTruthy max_rows ∧ row_count > max_rows.getD 0 then
    (⟨false, .error,
      "Row count " ++ toString row_count ++ " above maximum " ++ toString (max_rows.getD 0),
      [("row_count", .int row_count),
       ("min_rows", .int min_rows),
       ("max_rows", .int (max_rows.getD 0))]⟩, df)
  else
    (⟨true, .error,
      "Row count " ++ toString row_count ++ " within expected range",
      [("row_count", .int row_count),
       ("min_rows", .int min_rows),
       ("max_rows", if pyTruthy max_rows then .int (max_rows.getD 0) else .noneV)]⟩,
     df)

/-- Models `Series.unique()`: the distinct values in order of first appearance. -/
def pdUnique (seen : List Value) : List Value → List Value
  | [] => []
  | v :: vs => if v ∈ seen then pdUnique seen vs else v :: pdUnique (v :: seen) vs

/-- Models `check_column_values(df, column, allowed_values)` of
`data_quality_checks.py`. -/
def check_column_values (df : DataFrame) (column : String)
    (allowed_values : List Value) : CheckResult × DataFrame :=
  let unique_values := pdUnique [] (df.colVals column)
  let invalid_values := unique_values.filter (fun v => v ∉ allowed_values)
  if invalid_values ≠ [] then
    (⟨false, .error,
      "Found invalid values in column " ++ column ++ ": " ++ valueListStr invalid_values,
      [("column", .text column),
       ("invalid_values", .jsonVals invalid_values),
       ("allowed_values", .jsonVals allowed_values)]⟩, df)
  else
    (⟨true, .error,
      "All values in column " ++ column ++ " are valid",
      [("column", .text column),
       ("unique_values", .jsonVals unique_values),
       ("allowed_values", .jsonVals allowed_values)]⟩, df)

/-- The numeric entries of a column (`NaN`/non-numeric cells never satisfy a
`<`/`>` comparison in pandas, so only these participate). -/
def numsOf (vals : List Value) : List ℚ :=
  vals.filterMap (fun v => match v with | .num q => some q | _ => none)

/-- Models `(df[column] < m).sum()`. -/
def countBelow (vals : List Value) (m : ℚ) : Nat :=
  (numsOf vals).countP (fun q => q < m)

/-- Models `(df[column] > m).sum()`. -/
def countAbove (vals : List Value) (m : ℚ) : Nat :=
  (numsOf vals).countP (fun q => q > m)

/-- Models `df[column].min()` over the numeric entries (`none` models NaN on an
empty/all-null column). -/
def colMin (vals : List Value) : Option ℚ :=
  (numsOf vals).foldr (fun q acc => match acc with
    | none => some q
    | some m => some (min q m)) none

/-- Models `df[column].max()` over the numeric entries. -/
def colMax (vals : List Value) : Option ℚ :=
  (numsOf vals).foldr (fun q acc => match acc with
    | none => some q
    | some m => some (max q m)) none

/-- Renders an optional rational as metadata float (NaN for `none`). -/
def optFloat : Option ℚ → MetaVal
  | some q => .float q
  | none => .text "nan"

/-- The failing below-minimum result of `check_numeric_range`. -/
def numericBelowRes (column : String) (vals : List Value) (m : ℚ) : CheckResult :=
  ⟨false, .error,
    toString (countBelow vals m) ++ " values in column " ++ column ++
      " below minimum " ++ qStr m,
    [("column", .text column),
     ("below_min_count", .int (countBelow vals m)),
     ("min_value", .float m),
     ("actual_min", optFloat (colMin vals))]⟩

/-- The failing above-maximum result of `check_numeric_range`. -/
def numericAboveRes (column : String) (vals : List Value) (mx : ℚ) : CheckResult :=
  ⟨false, .error,
    toString (countAbove vals mx) ++ " values in column " ++ column ++
      " above maximum " ++ qStr mx,
    [("column", .text column),
     ("above_max_count", .int (countAbove vals mx)),
     ("max_value", .float mx),
     ("actual_max", optFloat (colMax vals))]⟩

/-- The passing result of `check_numeric_range` (its metadata uses `is not
None` tests, not truthiness). -/
def numericPassRes (column : String) (vals : List Value)
    (min_value max_value : Option ℚ) : CheckResult :=
  ⟨true, .error,
    "All values in column " ++ column ++ " within expected range",
    [("column", .text column),
     ("min_value", match min_value with | some m => .float m | none => .noneV),
     ("max_value", match max_value with | some m => .float m | none => .noneV),
     ("actual_min", optFloat (colMin vals)),
     ("actual_max", optFloat (colMax vals))]⟩

/-- Models `check_numeric_range(df, column, min_value, max_value)` of
`data_quality_checks.py`: the min bound is tested first and returns
immediately on violation, then the max bound, each only when supplied. -/
def check_numeric_range (df : DataFrame) (column : String)
    (min_value : Option ℚ := none) (max_value : Option ℚ := none) :
    CheckResult × DataFrame :=
  let vals := df.colVals column
  let minFail : Option CheckResult :=
    match min_value with
    | some m => if countBelow vals m > 0 then some (numericBelowRes column vals m) else none
    | none => none
  match minFail with
  | some r => (r, df)
  | none =>
    let maxFail : Option CheckResult :=
      match max_value with
      | some mx => if countAbove vals mx > 0 then some (numericAboveRes column vals mx) else none
      | none => none
    match maxFail with
    | some r => (r, df)
    | none => (numericPassRes column vals min_value max_value, df)

/-- Cast of `pd.to_datetime(df[col])` on a whole column: the dtype becomes
`datetime64`; cell values are modelled as already parsed. -/
def pdToDatetimeCol (c : Column) : Column :=
  { c with dtype := .datetime64 }

/-- Models `df[column] = pd.to_datetime(df[column])`: the in-place reassignment of
the parsed column into the dataframe of the caller (no-op when the column is
absent; the source raises `KeyError` there). -/
def DataFrame.parseDateCol (df : DataFrame) (name : String) : DataFrame :=
  ⟨df.cols.map (fun c => if c.name = name then pdToDatetimeCol c else c)⟩

/-- The timestamp payload of a cell, if any. -/
def timeOf : Value → Option Int
  | .time t => some t
  | _ => none

/-- Models `df[column].min()` over timestamp entries (`none` models NaT). -/
def tsMin (vals : List Value) : Option Int :=
  (vals.filterMap timeOf).foldr (fun t acc => match acc with
    | none => some t
    | some m => some (min t m)) none

/-- Models `df[column].max()` over timestamp entries (`none` models NaT). -/
def tsMax (vals : List Value) : Option Int :=
  (vals.filterMap timeOf).foldr (fun t acc => match acc with
    | none => some t
    | some m => some (max t m)) none

/-- Models `str(series.min())` rendering: NaT when there is no timestamp. -/
def tsOptStr : Option Int → String
  | some t => "ts(" ++ toString t ++ ")"
  | none => "NaT"

/-- Models `(df[column] < min_date).sum()` over parsed timestamps. -/
def tsCountBefore (vals : List Value) (m : Int) : Nat :=
  (vals.filterMap timeOf).countP (fun t => t < m)

/-- Models `(df[column] > max_date).sum()` over parsed timestamps. -/
def tsCountAfter (vals : List Value) (m : Int) : Nat :=
  (vals.filterMap timeOf).countP (fun t => t > m)

/-- The failing before-minimum result of `check_date_range`. -/
def dateBeforeRes (column : String) (vals : List Value) (m : Int) : CheckResult :=
  ⟨false, .error,
    toString (tsCountBefore vals m) ++ " dates in column " ++ column ++
      " before minimum " ++ toString m,
    [("column", .text column),
     ("before_min_count", .int (tsCountBefore vals m)),
     ("min_date", .text (toString m)),
     ("actual_min", .text (tsOptStr (tsMin vals)))]⟩

/-- The failing after-maximum result of `check_date_range`. -/
def dateAfterRes (column : String) (vals : List Value) (mx : Int) : CheckResult :=
  ⟨false, .error,
    toString (tsCountAfter vals mx) ++ " dates in column " ++ column ++
      " after maximum " ++ toString mx,
    [("column", .text column),
     ("after_max_count", .int (tsCountAfter vals mx)),
     ("max_date", .text (toString mx)),
     ("actual_max", .text (tsOptStr (tsMax vals)))]⟩

/-- The passing result of `check_date_range` (metadata min/max keys use
Python truthiness of the date strings; a parsed date argument is modelled
as present and truthy whenever supplied). -/
def datePassRes (column : String) (vals : List Value)
    (min_date max_date : Option Int) : CheckResult :=
  ⟨true, .error,
    "All dates in column " ++ column ++ " within expected range",
    [("column", .text column),
     ("min_date", match min_date with | some m => .text (toString m) | none => .noneV),
     ("max_date", match max_date with | some m => .text (toString m) | none => .noneV),
     ("actual_min", .text (tsOptStr (tsMin vals))),
     ("actual_max", .text (tsOptStr (tsMax vals)))]⟩

/-- Models `check_date_range(df, column, min_date, max_date)` of
`data_quality_checks.py`.  Its first statement reassigns the parsed
timestamp column into the dataframe of the caller; the bound date strings are
modelled as already-parsed timestamps. -/
def check_date_range (df : DataFrame) (column : String)
    (min_date : Option Int := none) (max_date : Option Int := none) :
    CheckResult × DataFrame :=
  let df := df.parseDateCol column
  let vals := df.colVals column
  let minFail : Option CheckResult :=
    match min_date with
    | some m => if tsCountBefore vals m > 0 then some (dateBeforeRes column vals m) else none
    | none => none
  match minFail with
  | some r => (r, df)
  | none =>
    let maxFail : Option CheckResult :=
      match max_date with
      | some mx => if tsCountAfter vals mx > 0 then some (dateAfterRes column vals mx) else none
      | none => none
    match maxFail with
    | some r => (r, df)
    | none => (datePassRes column vals min_date max_date, df)

/-- The failing missing-timestamp-column result shared by all four checks of
`freshness_checks.py`. -/
def missingTsColRes (df : DataFrame) (timestamp_column : String) : CheckResult :=
  ⟨false, .error,
    "Timestamp column \x27" ++ timestamp_column ++ "\x27 not found in DataFrame",
    [("timestamp_column", .text timestamp_column),
     ("available_columns", .jsonStrs df.names)]⟩

/-- Models `check_data_freshness(df, timestamp_column, max_age_hours)` of
`freshness_checks.py`; `current_time` (the ambient `datetime.now()`) is an
explicit epoch-minutes parameter.  An empty/all-NaT column gives NaT, whose
age comparison is false in pandas, hence the `none` branch passes. -/
def check_data_freshness (df : DataFrame) (timestamp_column : String)
    (max_age_hours : Int := 24) (current_time : Int := 0) :
    CheckResult × DataFrame :=
  if ¬ df.hasCol timestamp_column then
    (missingTsColRes df timestamp_column, df)
  else
    let df := df.parseDateCol timestamp_column
    let most_recent := tsMax (df.colVals timestamp_column)
    let age_hours : Option ℚ :=
      most_recent.map (fun t => ((current_time - t : Int) : ℚ) / 60)
    let stale : Bool := match age_hours with
      | some a => decide (a > (max_age_hours : ℚ))
      | none => false
    if stale then
      (⟨false, .error,
        "Data is " ++ qStr ((age_hours.getD 0)) ++
          " hours old, exceeds maximum age of " ++ toString max_age_hours ++ " hours",
        [("most_recent_timestamp", .text (tsOptStr most_recent)),
         ("current_time", .text (toString current_time)),
         ("age_hours", optFloat age_hours),
         ("max_age_hours", .int max_age_hours),
         ("timestamp_column", .text timestamp_column)]⟩, df)
    else
      (⟨true, .error,
        "Data is fresh: " ++ qStr (age_hours.getD 0) ++
          " hours old (within " ++ toString max_age_hours ++ " hour limit)",
        [("most_recent_timestamp", .text (tsOptStr most_recent)),
         ("current_time", .text (toString current_time)),
         ("age_hours", optFloat age_hours),
         ("max_age_hours", .int max_age_hours),
         ("timestamp_column", .text timestamp_column)]⟩, df)

/-- Consecutive differences of a list (`series.diff()` after dropping the
undefined first entry). -/
def consecDiffs : List Int → List Int
  | a :: b :: rest => (b - a) :: consecDiffs (b :: rest)
  | _ => []

/-- Maximum of a list of rationals (`none` on the empty list). -/
def qListMax (l : List ℚ) : Option ℚ :=
  l.foldr (fun q acc => match acc with
    | none => some q
    | some m => some (max q m)) none

/-- The timestamps of a column in sorted order: `sort_values` followed by
`.diff()`/`.dropna()` reduces to consecutive diffs of the sorted non-null
timestamps (NaT rows sort last and their diffs are NaN, hence dropped). -/
def sortedTimes (vals : List Value) : List Int :=
  List.insertionSort (fun a b => a ≤ b) (vals.filterMap timeOf)

/-- Models `check_update_frequency(df, timestamp_column, expected_frequency_hours)`
of `freshness_checks.py`. -/
def check_update_frequency (df : DataFrame) (timestamp_column : String)
    (expected_frequency_hours : Int := 1) : CheckResult × DataFrame :=
  if ¬ df.hasCol timestamp_column then
    (missingTsColRes df timestamp_column, df)
  else
    let df := df.parseDateCol timestamp_column
    let time_diffs : List ℚ :=
      (consecDiffs (sortedTimes (df.colVals timestamp_column))).map
        (fun d => (d : ℚ) / 60)
    if time_diffs.length = 0 then
      (⟨false, .warn,
        "Insufficient data to check update frequency",
        [("timestamp_column", .text timestamp_column),
         ("record_count", .int df.numRows)]⟩, df)
    else
      let avg_frequency := time_diffs.sum / (time_diffs.length : ℚ)
      let max_gap := (qListMax time_diffs).getD 0
      let threshold : ℚ := (expected_frequency_hours : ℚ) * 2
      if max_gap > threshold then
        (⟨false, .warn,
          "Large gap in updates detected: " ++ qStr max_gap ++
            " hours (expected: " ++ toString expected_frequency_hours ++ " hours)",
          [("max_gap_hours", .float max_gap),
           ("avg_frequency_hours", .float avg_frequency),
           ("expected_frequency_hours", .int expected_frequency_hours),
           ("timestamp_column", .text timestamp_column),
           ("record_count", .int df.numRows)]⟩, df)
      else
        (⟨true, .error,
          "Update frequency is normal: avg " ++ qStr avg_frequency ++
            " hours, max gap " ++ qStr max_gap ++ " hours",
          [("max_gap_hours", .float max_gap),
           ("avg_frequency_hours", .float avg_frequency),
           ("expected_frequency_hours", .int expected_frequency_hours),
           ("timestamp_column", .text timestamp_column),
           ("record_count", .int df.numRows)]⟩, df)

/-- Models `series.dt.hour`: hour of day of an epoch-minutes timestamp. -/
def tsHour (t : Int) : Int :=
  (t.ediv 60).emod 24

/-- Models `series.dt.weekday`: day of week, Monday = 0 (epoch day 0 is a
Thursday, index 3). -/
def tsWeekday (t : Int) : Int :=
  ((t.ediv 1440) + 3).emod 7

/-- One cell of the derived hour column. -/
def hourValOf : Value → Value
  | .time t => .num (tsHour t)
  | _ => .null

/-- One cell of the derived weekday column. -/
def weekdayValOf : Value → Value
  | .time t => .num (tsWeekday t)
  | _ => .null

/-- Models `check_business_hours_data(df, timestamp_column, business_start,
business_end)` of `freshness_checks.py`.  Besides parsing the timestamp
column in place it stores two derived columns `hour` and `weekday` into the
dataframe of the caller. -/
def check_business_hours_data (df : DataFrame) (timestamp_column : String)
    (business_start : Int := 9) (business_end : Int := 17) :
    CheckResult × DataFrame :=
  if ¬ df.hasCol timestamp_column then
    (missingTsColRes df timestamp_column, df)
  else
    let df := df.parseDateCol timestamp_column
    let vals := df.colVals timestamp_column
    let df := df.setCol "hour" .int64 (vals.map hourValOf)
    let business_hours_count :=
      (vals.map hourValOf).countP (fun v => match v with
        | .num q => decide ((business_start : ℚ) ≤ q ∧ q < (business_end : ℚ))
        | _ => false)
    let total_count := df.numRows
    let business_hours_percentage : ℚ :=
      if total_count > 0 then ((business_hours_count : ℚ) / (total_count : ℚ)) * 100 else 0
    let df := df.setCol "weekday" .int64 (vals.map weekdayValOf)
    let weekend_count :=
      (vals.map weekdayValOf).countP (fun v => match v with
        | .num q => decide ((5 : ℚ) ≤ q)
        | _ => false)
    let weekend_percentage : ℚ :=
      if total_count > 0 then ((weekend_count : ℚ) / (total_count : ℚ)) * 100 else 0
    (⟨true, .error,
      "Data distribution: " ++ qStr business_hours_percentage ++
        " percent during business hours, " ++ qStr weekend_percentage ++
        " percent on weekends",
      [("business_hours_count", .int business_hours_count),
       ("business_hours_percentage", .float business_hours_percentage),
       ("weekend_count", .int weekend_count),
       ("weekend_percentage", .float weekend_percentage),
       ("total_count", .int total_count),
       ("business_start", .int business_start),
       ("business_end", .int business_end),
       ("timestamp_column", .text timestamp_column)]⟩, df)

/-- Models `check_data_continuity(df, timestamp_column, expected_interval_minutes)`
of `freshness_checks.py`. -/
def check_data_continuity (df : DataFrame) (timestamp_column : String)
    (expected_interval_minutes : Int := 60) : CheckResult × DataFrame :=
  if ¬ df.hasCol timestamp_column then
    (missingTsColRes df timestamp_column, df)
  else
    let df := df.parseDateCol timestamp_column
    let time_diffs : List ℚ :=
      (consecDiffs (sortedTimes (df.colVals timestamp_column))).map
        (fun d => (d : ℚ))
    if time_diffs.length = 0 then
      (⟨false, .warn,
        "Insufficient data to check continuity",
        [("timestamp_column", .text timestamp_column),
         ("record_count", .int df.numRows)]⟩, df)
    else
      let tolerance : ℚ := (expected_interval_minutes : ℚ) * (3 / 2)
      let gaps := time_diffs.filter (fun d => d > tolerance)
      if gaps.length > 0 then
        (⟨false, .warn,
          "Found " ++ toString gaps.length ++ " data gaps longer than " ++
            qStr tolerance ++ " minutes",
          [("gap_count", .int gaps.length),
           ("largest_gap_minutes", optFloat (qListMax gaps)),
           ("avg_gap_minutes", .float (gaps.sum / (gaps.length : ℚ))),
           ("expected_interval_minutes", .int expected_interval_minutes),
           ("tolerance_minutes", .float tolerance),
           ("timestamp_column", .text timestamp_column)]⟩, df)
      else
        (⟨true, .error,
          "Data continuity is good: no gaps larger than " ++ qStr tolerance ++ " minutes",
          [("expected_interval_minutes", .int expected_interval_minutes),
           ("tolerance_minutes", .float tolerance),
           ("timestamp_column", .text timestamp_column),
           ("record_count", .int df.numRows)]⟩, df)

/-- Models `check_required_columns(df, required_columns)` of `schema_checks.py`. -/
def check_required_columns (df : DataFrame) (required_columns : List String) :
    CheckResult × DataFrame :=
  let missing_columns := required_columns.filter (fun c => c ∉ df.names)
  if missing_columns ≠ [] then
    (⟨false, .error,
      "Missing required columns: " ++ String.intercalate ", " missing_columns,
      [("missing_columns", .jsonStrs missing_columns),
       ("required_columns", .jsonStrs required_columns),
       ("actual_columns", .jsonStrs df.names)]⟩, df)
  else
    (⟨true, .error,
      "All " ++ toString required_columns.length ++ " required columns present",
      [("required_columns", .jsonStrs required_columns),
       ("actual_columns", .jsonStrs df.names)]⟩, df)

/-- One iteration of the type-matching loop of `check_column_types`: the
mismatch message for a column present in the dataframe, `none` when the
expected/actual pair is accepted (also for unrecognised expected kinds,
which no branch of the source chain matches). -/
def typeMismatch (column expected actual : String) : Option String :=
  if expected = "string" then
    (if actual.startsWith "object" then none
     else some (column ++ ": expected string, got " ++ actual))
  else if expected = "integer" then
    (if actual.startsWith "int" then none
     else some (column ++ ": expected integer, got " ++ actual))
  else if expected = "float" then
    (if actual.startsWith "float" then none
     else some (column ++ ": expected float, got " ++ actual))
  else if expected = "datetime" then
    (if actual.startsWith "datetime" then none
     else some (column ++ ": expected datetime, got " ++ actual))
  else if expected = "boolean" then
    (if actual.startsWith "bool" then none
     else some (column ++ ": expected boolean, got " ++ actual))
  else none

/-- The dtype string of a named column (used only when the column exists). -/
def DataFrame.dtypeStr (df : DataFrame) (name : String) : String :=
  match df.getCol name with
  | some c => c.dtype.toStr
  | none => ""

/-- The collected `type_mismatches` list of `check_column_types`: columns
named in `expected_types` but absent from the dataframe are skipped by the
loop (its `continue` statement). -/
def typeMismatches (df : DataFrame) (expected_types : List (String × String)) :
    List String :=
  expected_types.filterMap (fun p =>
    if df.hasCol p.1 then typeMismatch p.1 p.2 (df.dtypeStr p.1) else none)

/-- Models `{col: str(df[col].dtype) for col in df.columns}`. -/
def actualTypes (df : DataFrame) : List (String × String) :=
  df.cols.map (fun c => (c.name, c.dtype.toStr))

/-- Models `check_column_types(df, expected_types)` of `schema_checks.py`. -/
def check_column_types (df : DataFrame) (expected_types : List (String × String)) :
    CheckResult × DataFrame :=
  let type_mismatches := typeMismatches df expected_types
  if type_mismatches ≠ [] then
    (⟨false, .error,
      "Column type mismatches: " ++ String.intercalate "; " type_mismatches,
      [("type_mismatches", .jsonStrs type_mismatches),
       ("expected_types", .jsonDictStr expected_types),
       ("actual_types", .jsonDictStr (actualTypes df))]⟩, df)
  else
    (⟨true, .error,
      "All " ++ toString expected_types.length ++ " column types match expectations",
      [("expected_types", .jsonDictStr expected_types),
       ("actual_types", .jsonDictStr (actualTypes df))]⟩, df)

/-- Models `check_no_extra_columns(df, allowed_columns)` of `schema_checks.py`. -/
def check_no_extra_columns (df : DataFrame) (allowed_columns : List String) :
    CheckResult × DataFrame :=
  let extra_columns := df.names.filter (fun c => c ∉ allowed_columns)
  if extra_columns ≠ [] then
    (⟨false, .warn,
      "Found unexpected columns: " ++ String.intercalate ", " extra_columns,
      [("extra_columns", .jsonStrs extra_columns),
       ("allowed_columns", .jsonStrs allowed_columns),
       ("actual_columns", .jsonStrs df.names)]⟩, df)
  else
    (⟨true, .error,
      "No unexpected columns found",
      [("allowed_columns", .jsonStrs allowed_columns),
       ("actual_columns", .jsonStrs df.names)]⟩, df)

/-- Models `check_column_order(df, expected_order)` of `schema_checks.py`. -/
def check_column_order (df : DataFrame) (expected_order : List String) :
    CheckResult × DataFrame :=
  let common_columns := expected_order.filter (fun c => c ∈ df.names)
  let actual_order := df.names.filter (fun c => c ∈ expected_order)
  if common_columns ≠ actual_order then
    (⟨false, .warn,
      "Column order doesn\x27t match expected order",
      [("expected_order", .jsonStrs expected_order),
       ("actual_order", .jsonStrs actual_order),
       ("common_columns", .jsonStrs common_columns)]⟩, df)
  else
    (⟨true, .error,
      "Column order matches expected order for " ++
        toString common_columns.length ++ " columns",
      [("expected_order", .jsonStrs expected_order),
       ("actual_order", .jsonStrs actual_order)]⟩, df)

/-- The issue contributed by one optional sub-check of `validate_schema`:
the description of the failing sub-check, nothing when the key is absent or the
sub-check passes. -/
def subIssue (res : Option CheckResult) : List String :=
  match res with
  | some r => if r.passed then [] else [r.description]
  | none => []

/-- The ordered issue list collected by `validate_schema`, in the fixed key
order `required_columns`, `column_types`, `allowed_columns`,
`column_order`. -/
def schemaIssues (df : DataFrame) (schema : SchemaSpec) : List String :=
  subIssue (schema.required_columns.map (fun rc => (check_required_columns df rc).1)) ++
  subIssue (schema.column_types.map (fun ct => (check_column_types df ct).1)) ++
  subIssue (schema.allowed_columns.map (fun ac => (check_no_extra_columns df ac).1)) ++
  subIssue (schema.column_order.map (fun co => (check_column_order df co).1))

/-- The `actual_schema` snapshot embedded by `validate_schema`: column
names, per-column dtype, and the `(rows, columns)` shape. -/
def actualSchemaSnapshot (df : DataFrame) : MetaVal :=
  .jsonSnapshot df.names (actualTypes df) df.numRows df.cols.length

/-- Models `validate_schema(df, schema)` of `schema_checks.py`. -/
def validate_schema (df : DataFrame) (schema : SchemaSpec) :
    CheckResult × DataFrame :=
  let issues := schemaIssues df schema
  if issues ≠ [] then
    (⟨false, .error,
      "Schema validation failed: " ++ String.intercalate "; " issues,
      [("schema_issues", .jsonStrs issues),
       ("schema_definition", .jsonSchema schema),
       ("actual_schema", actualSchemaSnapshot df)]⟩, df)
  else
    (⟨true, .error,
      "Schema validation passed",
      [("schema_definition", .jsonSchema schema),
       ("actual_schema", actualSchemaSnapshot df)]⟩, df)

/-- Two dataframes that are row permutations of each other: columns agree
pairwise in name and dtype and hold permuted cell values (a permutation of
the rows permutes every column the same way, hence satisfies this). -/
def RowPerm (d d' : DataFrame) : Prop :=
  List.Forall₂
    (fun c c' => c.name = c'.name ∧ c.dtype = c'.dtype ∧ c.values.Perm c'.values)
    d.cols d'.cols

/-- Concrete dataset of spec scenario A: columns `id`, `email`, two rows,
one null email. -/
def dfScenA : DataFrame :=
  ⟨[⟨"id", .int64, [.num 1, .num 2]⟩,
    ⟨"email", .object, [.str "a@b.com", .null]⟩]⟩

/-- Concrete five-row dataset. -/
def dfFive : DataFrame :=
  ⟨[⟨"a", .int64, [.num 1, .num 2, .num 3, .num 4, .num 5]⟩]⟩

/-- Concrete one-row dataset with a single timestamp column `ts`
(600 epoch minutes = 10:00 on Thursday 1970-01-01). -/
def dfTs : DataFrame :=
  ⟨[⟨"ts", .object, [.time 600]⟩]⟩

/-- Concrete dataset without a `ts` column. -/
def dfNoTs : DataFrame :=
  ⟨[⟨"a", .int64, [.num 1]⟩]⟩

/-- Concrete numeric dataset whose values sit on the range bounds. -/
def dfRange : DataFrame :=
  ⟨[⟨"x", .float64, [.num 0, .num 5, .num 10]⟩]⟩

/-- Concrete single-column dataset, values in one row order. -/
def dfP1 : DataFrame :=
  ⟨[⟨"c", .int64, [.num 1, .num 2]⟩]⟩

/-- The same dataset as `dfP1` with its two rows swapped. -/
def dfP2 : DataFrame :=
  ⟨[⟨"c", .int64, [.num 2, .num 1]⟩]⟩

/-- C10: `check_column_types` silently skips columns named in
`expected_types` that are absent from the dataset: the mismatch list equals
the one computed from the present entries alone, and when every listed
column is missing the check passes. -/
theorem c10_column_types_skips_missing (df : DataFrame)
    (expected_types : List (String × String)) :
    typeMismatches df expected_types =
      typeMismatches df (expected_types.filter (fun p => df.hasCol p.1)) ∧
    ((∀ p ∈ expected_types, df.hasCol p.1 = false) →
      (check_column_types df expected_types).1.passed = true) := by
  constructor
  · unfold typeMismatches
    induction expected_types with
    | nil => rfl
    | cons p ps ih =>
      by_cases h : df.hasCol p.1 = true
      · cases htm : typeMismatch p.1 p.2 (df.dtypeStr p.1) <;>
          simp [List.filterMap_cons, List.filter_cons, h, htm, ih]
      · simp [List.filterMap_cons, List.filter_cons, h, ih]
  · intro h
    have hnil : typeMismatches df expected_types = [] := by
      unfold typeMismatches
      rw [List.filterMap_eq_nil_iff]
      intro p hp
      simp [h p hp]
    unfold check_column_types
    simp [hnil]

/-- Witness for `c10_column_types_skips_missing` at a dataframe with no
columns and a one-entry type expectation. -/
theorem c10_column_types_skips_missing_witness :
    (∀ p ∈ ([("a", "integer")] : List (String × String)),
      (⟨[]⟩ : DataFrame).hasCol p.1 = false) ∧
    (check_column_types ⟨[]⟩ [("a", "integer")]).1.passed = true :=
  ⟨by decide,
   (c10_column_types_skips_missing ⟨[]⟩ [("a", "integer")]).2 (by decide)⟩

/-- C8: `check_column_order` fails (WARN) exactly when the expected order
restricted to present columns differs from the actual order restricted to
expected columns; when `expected_order` is a permutation of the
columns, it passes iff the columns are in exactly that order. -/
theorem c8_column_order_law (df : DataFrame) (expected_order : List String) :
    ((check_column_order df expected_order).1.passed = false ↔
      expected_order.filter (fun c => c ∈ df.names) ≠
        df.names.filter (fun c => c ∈ expected_order)) ∧
    ((check_column_order df expected_order).1.passed = false →
      (check_column_order df expected_order).1.severity = .warn) ∧
    (expected_order.Perm df.names →
      ((check_column_order df expected_order).1.passed = true ↔
        df.names = expected_order)) := by
  by_cases h : expected_order.filter (fun c => c ∈ df.names) =
      df.names.filter (fun c => c ∈ expected_order)
  · refine ⟨by simp [check_column_order, h], by simp [check_column_order, h], ?_⟩
    intro hperm
    have h1 : expected_order.filter (fun c => c ∈ df.names) = expected_order :=
      List.filter_eq_self.mpr (fun x hx => by simp [hperm.subset hx])
    have h2 : df.names.filter (fun c => c ∈ expected_order) = df.names :=
      List.filter_eq_self.mpr (fun x hx => by simp [hperm.symm.subset hx])
    rw [h1, h2] at h
    simp [check_column_order, h1, h2, h]
  · refine ⟨by simp [check_column_order, h], by simp [check_column_order, h], ?_⟩
    intro hperm
    have h1 : expected_order.filter (fun c => c ∈ df.names) = expected_order :=
      List.filter_eq_self.mpr (fun x hx => by simp [hperm.subset hx])
    have h2 : df.names.filter (fun c => c ∈ expected_order) = df.names :=
      List.filter_eq_self.mpr (fun x hx => by simp [hperm.symm.subset hx])
    rw [h1, h2] at h
    have : ¬ df.names = expected_order := fun he => h (he ▸ rfl)
    simp [check_column_order, h1, h2, h, this]

/-- Witness for `c8_column_order_law`: `["email", "id"]` is a permutation
of the scenario A columns but not their order, so the check fails. -/
theorem c8_column_order_law_witness :
    (["email", "id"] : List String).Perm dfScenA.names ∧
    ((check_column_order dfScenA ["email", "id"]).1.passed = true ↔
      dfScenA.names = ["email", "id"]) :=
  ⟨by decide, (c8_column_order_law dfScenA ["email", "id"]).2.2 (by decide)⟩

/-- C5 counterexample: with five rows and a supplied `max_rows = 0` the
check passes although the row count exceeds the bound, because the source
guards the upper bound with Python truthiness (`if max_rows and ...`). -/
theorem c5_row_count_counterexample :
    (check_row_count dfFive 1 (some 0)).1.passed = true ∧
    ¬ ((dfFive.numRows : Int) ≤ 0) := by decide

/-- C5 amended: `check_row_count` passes iff `min_rows ≤ len(D)` and, when
`max_rows` is supplied and nonzero, `len(D) ≤ max_rows` (an absent — or
zero, via truthiness — `max_rows` is treated as +∞); every failure has
severity ERROR and metadata reporting the actual row count and the
violated bound. -/
theorem c5_row_count_law (df : DataFrame) (min_rows : Int)
    (max_rows : Option Int) :
    ((check_row_count df min_rows max_rows).1.passed = true ↔
      (min_rows ≤ (df.numRows : Int) ∧
        (pyTruthy max_rows = true → (df.numRows : Int) ≤ max_rows.getD 0))) ∧
    ((check_row_count df min_rows max_rows).1.passed = false →
      (check_row_count df min_rows max_rows).1.severity = .error ∧
      (check_row_count df min_rows max_rows).1.getMeta "row_count" =
        some (.int df.numRows) ∧
      (((df.numRows : Int) < min_rows →
        (check_row_count df min_rows max_rows).1.getMeta "min_rows" =
          some (.int min_rows)) ∧
       (¬ (df.numRows : Int) < min_rows →
        (check_row_count df min_rows max_rows).1.getMeta "max_rows" =
          some (.int (max_rows.getD 0))))) := by
  unfold check_row_count
  dsimp only
  split
  · rename_i h1
    refine ⟨⟨fun hx => absurd hx Bool.false_ne_true, fun hx => absurd hx.1 (not_le.mpr h1)⟩,
      fun _ => ⟨rfl, rfl, fun _ => rfl, fun hc => absurd h1 hc⟩⟩
  · rename_i h1
    split
    · rename_i h2
      refine ⟨⟨fun hx => absurd hx Bool.false_ne_true, fun hx => ?_⟩,
        fun _ => ⟨rfl, rfl, fun hc => absurd hc h1, fun _ => rfl⟩⟩
      exact absurd (hx.2 h2.1) (not_le.mpr h2.2)
    · rename_i h2
      refine ⟨⟨fun _ => ⟨by omega, fun ht => ?_⟩, fun _ => rfl⟩,
        fun hf => absurd hf (by simp)⟩
      by_contra hgt
      exact h2 ⟨ht, by omega⟩

/-- Witness for `c5_row_count_law` at spec scenario B: five rows against
`min_rows = 10` fails with severity ERROR. -/
theorem c5_row_count_law_witness :
    (check_row_count dfFive 10 none).1.passed = false ∧
    (check_row_count dfFive 10 none).1.severity = .error :=
  ⟨by decide, ((c5_row_count_law dfFive 10 none).2 (by decide)).1⟩

/-- C2 counterexample: both `check_date_range` and
`check_business_hours_data` hand back a dataframe different from the one
passed in — the timestamp column is re-typed in place and (for the
business-hours check) `hour`/`weekday` columns are stored into it. -/
theorem c2_mutation_counterexample :
    (check_date_range dfTs "ts").2 ≠ dfTs ∧
    (check_business_hours_data dfTs "ts").2 ≠ dfTs := by decide

/-- C2 amended: the column-level, row-count and schema checks return the
dataframe of the caller unchanged, while `check_date_range` and the four
freshness checks reassign the parsed timestamp column into it in place and
`check_business_hours_data` additionally stores derived `hour` and
`weekday` columns into it. -/
theorem c2_mutation_profile :
    (∀ df columns, (check_no_nulls df columns).2 = df) ∧
    (∀ df columns, (check_unique_values df columns).2 = df) ∧
    (∀ df mn mx, (check_row_count df mn mx).2 = df) ∧
    (∀ df column allowed, (check_column_values df column allowed).2 = df) ∧
    (∀ df column mn mx, (check_numeric_range df column mn mx).2 = df) ∧
    (∀ df required, (check_required_columns df required).2 = df) ∧
    (∀ df types, (check_column_types df types).2 = df) ∧
    (∀ df allowed, (check_no_extra_columns df allowed).2 = df) ∧
    (∀ df expected, (check_column_order df expected).2 = df) ∧
    (∀ df schema, (validate_schema df schema).2 = df) ∧
    (∀ df column mn mx, (check_date_range df column mn mx).2 =
      df.parseDateCol column) ∧
    (∀ df ts mah ct, (check_data_freshness df ts mah ct).2 =
      if df.hasCol ts then df.parseDateCol ts else df) ∧
    (∀ df ts ef, (check_update_frequency df ts ef).2 =
      if df.hasCol ts then df.parseDateCol ts else df) ∧
    (∀ df ts ei, (check_data_continuity df ts ei).2 =
      if df.hasCol ts then df.parseDateCol ts else df) ∧
    (∀ df ts bs be, (check_business_hours_data df ts bs be).2 =
      if df.hasCol ts then
        ((df.parseDateCol ts).setCol "hour" .int64
            (((df.parseDateCol ts).colVals ts).map hourValOf)).setCol
          "weekday" .int64 (((df.parseDateCol ts).colVals ts).map weekdayValOf)
      else df) := by
  refine ⟨?_, ?_, ?_, ?_, ?_, ?_, ?_, ?_, ?_, ?_, ?_, ?_, ?_, ?_, ?_⟩
  · intro df columns; unfold check_no_nulls; dsimp only; split <;> rfl
  · intro df columns; unfold check_unique_values; dsimp only; split <;> rfl
  · intro df mn mx; unfold check_row_count; dsimp only
    split; · rfl
    split <;> rfl
  · intro df column allowed; unfold check_column_values; dsimp only; split <;> rfl
  · intro df column mn mx; unfold check_numeric_range; dsimp only
    split; · rfl
    split <;> rfl
  · intro df required; unfold check_required_columns; dsimp only; split <;> rfl
  · intro df types; unfold check_column_types; dsimp only; split <;> rfl
  · intro df allowed; unfold check_no_extra_columns; dsimp only; split <;> rfl
  · intro df expected; unfold check_column_order; dsimp only; split <;> rfl
  · intro df schema; unfold validate_schema; dsimp only; split <;> rfl
  · intro df column mn mx; unfold check_date_range; dsimp only
    split; · rfl
    split <;> rfl
  · intro df ts mah ct; unfold check_data_freshness; dsimp only
    by_cases h : df.hasCol ts = true
    · simp only [h, if_true, eq_self_iff_true, not_true, if_false, if_neg]
      split <;> simp [h]
    · simp [h]
  · intro df ts ef; unfold check_update_frequency; dsimp only
    by_cases h : df.hasCol ts = true
    · simp only [h]
      (repeat' split) <;> first | rfl | simp_all
    · simp [h]
  · intro df ts ei; unfold check_data_continuity; dsimp only
    by_cases h : df.hasCol ts = true
    · simp only [h]
      (repeat' split) <;> first | rfl | simp_all
    · simp [h]
  · intro df ts bs be; unfold check_business_hours_data; dsimp only
    by_cases h : df.hasCol ts = true
    · simp [h]
    · simp [h]

/-- The failing-column names of `check_no_nulls` are the filter of the
checked columns by a positive null count. -/
theorem noNulls_failed_cols (df : DataFrame) (l : List String) :
    ((l.map (fun c => (c, nullCount (df.colVals c)))).filter
        (fun p => p.2 > 0)).map Prod.fst =
      l.filter (fun c => nullCount (df.colVals c) > 0) := by
  induction l with
  | nil => rfl
  | cons c cs ih =>
    by_cases h : nullCount (df.colVals c) > 0 <;>
      simp [List.filter_cons, h, ih]

/-- The values of the per-column null-count pairs sum to the mapped
counts. -/
theorem noNulls_counts_sum (df : DataFrame) (l : List String) :
    ((l.map (fun c => (c, nullCount (df.colVals c)))).map Prod.snd).sum =
      (l.map (fun c => nullCount (df.colVals c))).sum := by
  induction l with
  | nil => rfl
  | cons c cs ih => simp only [List.map_cons, List.sum_cons, ih]

/-- C3: `check_no_nulls` passes iff every cell of the named columns is
non-null; on failure it is an ERROR whose metadata lists exactly the
columns containing a null and whose per-column counts sum to the total
null count over the columns; on pass the metadata carries the row count.
(`columns.Nodup` reflects that `Series.to_dict` is modelled faithfully
only for a duplicate-free column list, and presence reflects that pandas
raises `KeyError` otherwise.) -/
theorem c3_no_nulls_law (df : DataFrame) (columns : List String)
    (_hnd : columns.Nodup) (_hpres : ∀ c ∈ columns, df.hasCol c = true) :
    ((check_no_nulls df columns).1.passed = true ↔
      ∀ c ∈ columns, ∀ v ∈ df.colVals c, v ≠ Value.null) ∧
    ((check_no_nulls df columns).1.passed = false →
      (check_no_nulls df columns).1.severity = .error ∧
      (∃ fl, (check_no_nulls df columns).1.getMeta "failed_columns" =
          some (.jsonStrs fl) ∧
        ∀ c, c ∈ fl ↔ (c ∈ columns ∧ Value.null ∈ df.colVals c)) ∧
      (∃ nc, (check_no_nulls df columns).1.getMeta "null_counts" =
          some (.jsonDictNat nc) ∧
        (nc.map Prod.snd).sum =
          (columns.map (fun c => nullCount (df.colVals c))).sum)) ∧
    ((check_no_nulls df columns).1.passed = true →
      (check_no_nulls df columns).1.getMeta "total_rows" =
        some (.int (df.numRows : Int))) := by
  have hfail := noNulls_failed_cols df columns
  unfold check_no_nulls
  dsimp only
  rw [hfail]
  split
  · rename_i hne
    refine ⟨⟨fun hx => absurd hx Bool.false_ne_true, fun hall => ?_⟩,
      fun _ => ⟨rfl, ⟨_, rfl, fun c => ?_⟩, ⟨_, rfl, noNulls_counts_sum df columns⟩⟩,
      fun ht => absurd ht Bool.false_ne_true⟩
    · exfalso
      apply hne
      rw [List.filter_eq_nil_iff]
      intro c hc
      have : nullCount (df.colVals c) = 0 := by
        rw [nullCount, List.count_eq_zero]
        intro hmem
        exact hall c hc Value.null hmem rfl
      simp [this]
    · rw [List.mem_filter]
      constructor
      · rintro ⟨hc, hcount⟩
        refine ⟨hc, ?_⟩
        have : 0 < nullCount (df.colVals c) := by simpa using hcount
        exact List.count_pos_iff.mp this
      · rintro ⟨hc, hnull⟩
        refine ⟨hc, ?_⟩
        simpa [nullCount] using List.count_pos_iff.mpr hnull
  · rename_i hnn
    have heq : columns.filter (fun c => nullCount (df.colVals c) > 0) = [] :=
      not_not.mp hnn
    refine ⟨⟨fun _ c hc v hv hvn => ?_, fun _ => rfl⟩,
      fun hf => absurd hf (by simp), fun _ => rfl⟩
    have hzero : ¬ (nullCount (df.colVals c) > 0) := by
      have := List.filter_eq_nil_iff.mp heq c hc
      simpa using this
    have : nullCount (df.colVals c) = 0 := by omega
    rw [nullCount, List.count_eq_zero] at this
    exact this (hvn ▸ hv)

/-- Witness for `c3_no_nulls_law` at spec scenario A. -/
theorem c3_no_nulls_law_witness :
    (["id", "email"] : List String).Nodup ∧
    (∀ c ∈ (["id", "email"] : List String), dfScenA.hasCol c = true) ∧
    ((check_no_nulls dfScenA ["id", "email"]).1.passed = true ↔
      ∀ c ∈ (["id", "email"] : List String),
        ∀ v ∈ dfScenA.colVals c, v ≠ Value.null) :=
  ⟨by decide, by decide,
   (c3_no_nulls_law dfScenA ["id", "email"] (by decide) (by decide)).1⟩

/-- Helper: `check_numeric_range` returns the below-minimum failure as soon as the
supplied min bound is strictly violated. -/
theorem numeric_range_below_char (df : DataFrame) (c : String)
    (mnO mxO : Option ℚ) (m : ℚ) (hm : mnO = some m)
    (hb : 0 < countBelow (df.colVals c) m) :
    (check_numeric_range df c mnO mxO).1 = numericBelowRes c (df.colVals c) m := by
  subst hm
  unfold check_numeric_range
  dsimp only
  rw [if_pos hb]

/-- Helper: `check_numeric_range` returns the above-maximum failure when the min
bound (if any) is satisfied and the supplied max bound is strictly
violated. -/
theorem numeric_range_above_char (df : DataFrame) (c : String)
    (mnO mxO : Option ℚ) (m : ℚ) (hm : mxO = some m)
    (hnb : ∀ m', mnO = some m' → countBelow (df.colVals c) m' = 0)
    (ha : 0 < countAbove (df.colVals c) m) :
    (check_numeric_range df c mnO mxO).1 = numericAboveRes c (df.colVals c) m := by
  subst hm
  cases mnO with
  | none =>
    unfold check_numeric_range
    dsimp only
    rw [if_pos ha]
  | some mn =>
    have h0 := hnb mn rfl
    unfold check_numeric_range
    dsimp only
    rw [if_neg (by omega), if_pos ha]

/-- Helper: `check_numeric_range` passes when every supplied bound is respected. -/
theorem numeric_range_pass_char (df : DataFrame) (c : String)
    (mnO mxO : Option ℚ)
    (hnb : ∀ m, mnO = some m → countBelow (df.colVals c) m = 0)
    (hna : ∀ m, mxO = some m → countAbove (df.colVals c) m = 0) :
    (check_numeric_range df c mnO mxO).1 =
      numericPassRes c (df.colVals c) mnO mxO := by
  cases mnO with
  | none =>
    cases mxO with
    | none => rfl
    | some mx =>
      have h0 := hna mx rfl
      unfold check_numeric_range
      dsimp only
      rw [if_neg (by omega)]
  | some mn =>
    have h0 := hnb mn rfl
    cases mxO with
    | none =>
      unfold check_numeric_range
      dsimp only
      rw [if_neg (by omega)]
    | some mx =>
      have h1 := hna mx rfl
      unfold check_numeric_range
      dsimp only
      rw [if_neg (by omega), if_neg (by omega)]

/-- C4: `check_numeric_range` uses closed bounds (equality with a bound is
no violation), checks each bound only when supplied, and returns on the
first bound violated — a strict min violation reports the below-min count
and observed minimum with no max-bound metadata, otherwise a strict max
violation reports the above-max count and observed maximum; otherwise it
passes. -/
theorem c4_numeric_range_law (df : DataFrame) (c : String)
    (mnO mxO : Option ℚ) (_hc : df.hasCol c = true) :
    ((check_numeric_range df c mnO mxO).1.passed = true ↔
      ((∀ m, mnO = some m → countBelow (df.colVals c) m = 0) ∧
       (∀ m, mxO = some m → countAbove (df.colVals c) m = 0))) ∧
    (∀ m, mnO = some m → 0 < countBelow (df.colVals c) m →
      (check_numeric_range df c mnO mxO).1.passed = false ∧
      (check_numeric_range df c mnO mxO).1.severity = .error ∧
      (check_numeric_range df c mnO mxO).1.getMeta "below_min_count" =
        some (.int (countBelow (df.colVals c) m)) ∧
      (check_numeric_range df c mnO mxO).1.getMeta "actual_min" =
        some (optFloat (colMin (df.colVals c))) ∧
      (check_numeric_range df c mnO mxO).1.getMeta "above_max_count" = none ∧
      (check_numeric_range df c mnO mxO).1.getMeta "max_value" = none) ∧
    (∀ m, mxO = some m →
      (∀ m', mnO = some m' → countBelow (df.colVals c) m' = 0) →
      0 < countAbove (df.colVals c) m →
      (check_numeric_range df c mnO mxO).1.passed = false ∧
      (check_numeric_range df c mnO mxO).1.severity = .error ∧
      (check_numeric_range df c mnO mxO).1.getMeta "above_max_count" =
        some (.int (countAbove (df.colVals c) m)) ∧
      (check_numeric_range df c mnO mxO).1.getMeta "actual_max" =
        some (optFloat (colMax (df.colVals c)))) ∧
    ((∀ q ∈ numsOf (df.colVals c),
        (∀ m, mnO = some m → m ≤ q) ∧ (∀ m, mxO = some m → q ≤ m)) →
      (check_numeric_range df c mnO mxO).1.passed = true) := by
  refine ⟨⟨fun hp => ?_, fun hz => ?_⟩, fun m hm hb => ?_, fun m hm hnb ha => ?_,
    fun hall => ?_⟩
  · have hnb : ∀ m, mnO = some m → countBelow (df.colVals c) m = 0 := by
      intro m hm
      by_contra h0
      have hb : 0 < countBelow (df.colVals c) m := Nat.pos_of_ne_zero h0
      rw [numeric_range_below_char df c mnO mxO m hm hb] at hp
      exact absurd hp (by simp [numericBelowRes])
    refine ⟨hnb, fun m hm => ?_⟩
    by_contra h0
    have ha : 0 < countAbove (df.colVals c) m := Nat.pos_of_ne_zero h0
    rw [numeric_range_above_char df c mnO mxO m hm hnb ha] at hp
    exact absurd hp (by simp [numericAboveRes])
  · rw [numeric_range_pass_char df c mnO mxO hz.1 hz.2]
    rfl
  · rw [numeric_range_below_char df c mnO mxO m hm hb]
    exact ⟨rfl, rfl, rfl, rfl, rfl, rfl⟩
  · rw [numeric_range_above_char df c mnO mxO m hm hnb ha]
    exact ⟨rfl, rfl, rfl, rfl⟩
  · have hnb : ∀ m, mnO = some m → countBelow (df.colVals c) m = 0 := by
      intro m hm
      rw [countBelow, List.countP_eq_zero]
      intro q hq
      simpa using not_lt.mpr ((hall q hq).1 m hm)
    have hna : ∀ m, mxO = some m → countAbove (df.colVals c) m = 0 := by
      intro m hm
      rw [countAbove, List.countP_eq_zero]
      intro q hq
      simpa using not_lt.mpr ((hall q hq).2 m hm)
    rw [numeric_range_pass_char df c mnO mxO hnb hna]
    rfl

/-- Witness for `c4_numeric_range_law`: values sitting exactly on the
bounds `[0, 10]` are not violations, so the check passes. -/
theorem c4_numeric_range_law_witness :
    dfRange.hasCol "x" = true ∧
    (∀ q ∈ numsOf (dfRange.colVals "x"),
      (∀ m, (some (0 : ℚ)) = some m → m ≤ q) ∧
      (∀ m, (some (10 : ℚ)) = some m → q ≤ m)) ∧
    (check_numeric_range dfRange "x" (some 0) (some 10)).1.passed = true :=
  ⟨by decide, by decide,
   (c4_numeric_range_law dfRange "x" (some 0) (some 10) (by decide)).2.2.2
     (by decide)⟩

/-- One optional sub-check contributes the empty issue list iff it is
absent or passes. -/
theorem subIssue_map_eq_nil {α : Type} (o : Option α) (f : α → CheckResult) :
    subIssue (o.map f) = [] ↔ ∀ x, o = some x → (f x).passed = true := by
  cases o with
  | none => simp [subIssue]
  | some x => by_cases h : (f x).passed = true <;> simp [subIssue, h]

/-- One optional sub-check contributes exactly one issue when present and
failing, none otherwise. -/
theorem subIssue_map_length {α : Type} (o : Option α) (f : α → CheckResult) :
    (subIssue (o.map f)).length =
      o.elim 0 (fun x => if (f x).passed then 0 else 1) := by
  cases o with
  | none => rfl
  | some x => by_cases h : (f x).passed = true <;> simp [subIssue, h]

/-- C1: `validate_schema` passes iff every sub-check implied by a present
schema key passes; the issue list holds one failing description per
failing sub-check (in the fixed key order of `schemaIssues`); a failing
aggregate is an ERROR carrying the issue list, and both outcomes embed the
actual-schema snapshot. -/
theorem c1_validate_schema_law (df : DataFrame) (schema : SchemaSpec) :
    ((validate_schema df schema).1.passed = true ↔
      ((∀ rc, schema.required_columns = some rc →
          (check_required_columns df rc).1.passed = true) ∧
       (∀ ct, schema.column_types = some ct →
          (check_column_types df ct).1.passed = true) ∧
       (∀ ac, schema.allowed_columns = some ac →
          (check_no_extra_columns df ac).1.passed = true) ∧
       (∀ co, schema.column_order = some co →
          (check_column_order df co).1.passed = true))) ∧
    ((schemaIssues df schema).length =
      schema.required_columns.elim 0
          (fun rc => if (check_required_columns df rc).1.passed then 0 else 1) +
        (schema.column_types.elim 0
          (fun ct => if (check_column_types df ct).1.passed then 0 else 1) +
        (schema.allowed_columns.elim 0
          (fun ac => if (check_no_extra_columns df ac).1.passed then 0 else 1) +
        schema.column_order.elim 0
          (fun co => if (check_column_order df co).1.passed then 0 else 1)))) ∧
    ((validate_schema df schema).1.passed = false →
      (validate_schema df schema).1.severity = .error ∧
      (validate_schema df schema).1.getMeta "schema_issues" =
        some (.jsonStrs (schemaIssues df schema))) ∧
    ((validate_schema df schema).1.getMeta "actual_schema" =
      some (actualSchemaSnapshot df)) := by
  have hnil : schemaIssues df schema = [] ↔
      ((∀ rc, schema.required_columns = some rc →
          (check_required_columns df rc).1.passed = true) ∧
       (∀ ct, schema.column_types = some ct →
          (check_column_types df ct).1.passed = true) ∧
       (∀ ac, schema.allowed_columns = some ac →
          (check_no_extra_columns df ac).1.passed = true) ∧
       (∀ co, schema.column_order = some co →
          (check_column_order df co).1.passed = true)) := by
    unfold schemaIssues
    simp only [List.append_eq_nil, subIssue_map_eq_nil]
    tauto
  have hlen : (schemaIssues df schema).length =
      schema.required_columns.elim 0
          (fun rc => if (check_required_columns df rc).1.passed then 0 else 1) +
        (schema.column_types.elim 0
          (fun ct => if (check_column_types df ct).1.passed then 0 else 1) +
        (schema.allowed_columns.elim 0
          (fun ac => if (check_no_extra_columns df ac).1.passed then 0 else 1) +
        schema.column_order.elim 0
          (fun co => if (check_column_order df co).1.passed then 0 else 1))) := by
    unfold schemaIssues
    simp only [List.length_append, subIssue_map_length]
    omega
  refine ⟨?_, hlen, ?_, ?_⟩
  · unfold validate_schema
    dsimp only
    split
    · rename_i hne
      exact ⟨fun hx => absurd hx Bool.false_ne_true,
        fun hr => absurd (hnil.mpr hr) hne⟩
    · rename_i hq
      exact ⟨fun _ => hnil.mp (not_not.mp hq), fun _ => rfl⟩
  · unfold validate_schema
    dsimp only
    split
    · exact fun _ => ⟨rfl, rfl⟩
    · exact fun hf => absurd hf (by simp)
  · unfold validate_schema
    dsimp only
    split
    · rfl
    · rfl

/-- Witness for `c1_validate_schema_law`: the scenario A dataframe fails a
schema requiring a `created_at` column, with severity ERROR and the issue
list embedded. -/
theorem c1_validate_schema_law_witness :
    (validate_schema dfScenA ⟨some ["id", "email", "created_at"], none, none, none⟩).1.passed
        = false ∧
    (validate_schema dfScenA ⟨some ["id", "email", "created_at"], none, none, none⟩).1.severity
        = .error := by
  refine ⟨by decide, ?_⟩
  exact ((c1_validate_schema_law dfScenA
    ⟨some ["id", "email", "created_at"], none, none, none⟩).2.2.1 (by decide)).1

/-- Parsing a column in place does not change the cell values of any column. -/
theorem parse_colVals (df : DataFrame) (n m : String) :
    (df.parseDateCol n).colVals m = df.colVals m := by
  obtain ⟨cols⟩ := df
  induction cols with
  | nil => rfl
  | cons c cs ih =>
    unfold DataFrame.parseDateCol DataFrame.colVals DataFrame.getCol at *
    by_cases hn : c.name = n <;> by_cases hm : c.name = m <;>
      simp only [List.map_cons, List.find?_cons, pdToDatetimeCol, hn, hm,
        decide_True, decide_False, if_true, if_false] <;>
      simp_all [pdToDatetimeCol]

/-- Parsing a column in place does not change the set of column names. -/
theorem parse_hasCol (df : DataFrame) (n m : String) :
    (df.parseDateCol n).hasCol m = df.hasCol m := by
  obtain ⟨cols⟩ := df
  induction cols with
  | nil => rfl
  | cons c cs ih =>
    unfold DataFrame.parseDateCol DataFrame.hasCol at *
    by_cases hn : c.name = n <;>
      simp_all [List.any_cons, pdToDatetimeCol]

/-- Parsing a column in place does not change the row count. -/
theorem parse_numRows (df : DataFrame) (n : String) :
    (df.parseDateCol n).numRows = df.numRows := by
  obtain ⟨cols⟩ := df
  cases cols with
  | nil => rfl
  | cons c cs =>
    unfold DataFrame.parseDateCol DataFrame.numRows
    by_cases hn : c.name = n <;> simp [pdToDatetimeCol, hn]

/-- Parsing a column in place preserves the equal-length well-formedness
of the columns. -/
theorem parse_wf (df : DataFrame) (n : String) (R : Nat)
    (hwf : ∀ c ∈ df.cols, c.values.length = R) :
    ∀ c ∈ (df.parseDateCol n).cols, c.values.length = R := by
  intro c hc
  unfold DataFrame.parseDateCol at hc
  rw [List.mem_map] at hc
  obtain ⟨c0, hc0, rfl⟩ := hc
  by_cases hn : c0.name = n <;> simp [pdToDatetimeCol, hn, hwf c0 hc0]

/-- Assigning a column whose length equals the row count preserves the row
count. -/
theorem setCol_numRows (df : DataFrame) (n : String) (dt : Dtype)
    (vals : List Value) (hv : vals.length = df.numRows) :
    (df.setCol n dt vals).numRows = df.numRows := by
  unfold DataFrame.setCol
  split
  · obtain ⟨cols⟩ := df
    cases cols with
    | nil => rfl
    | cons c cs =>
      by_cases h : c.name = n
      · simpa [DataFrame.numRows, h] using hv
      · simp [DataFrame.numRows, h]
  · obtain ⟨cols⟩ := df
    cases cols with
    | nil => simpa [DataFrame.numRows] using hv
    | cons c cs => simp [DataFrame.numRows]

/-- Assigning a column whose length equals the common row count preserves
the equal-length well-formedness of the columns. -/
theorem setCol_wf (df : DataFrame) (n : String) (dt : Dtype)
    (vals : List Value) (R : Nat)
    (hwf : ∀ c ∈ df.cols, c.values.length = R) (hv : vals.length = R) :
    ∀ c ∈ (df.setCol n dt vals).cols, c.values.length = R := by
  intro c hc
  unfold DataFrame.setCol at hc
  split at hc
  · rw [List.mem_map] at hc
    obtain ⟨c0, hc0, rfl⟩ := hc
    by_cases h : c0.name = n <;> simp [h, hv, hwf c0 hc0]
  · rw [List.mem_append] at hc
    rcases hc with hc | hc
    · exact hwf c hc
    · rw [List.mem_singleton] at hc
      subst hc
      exact hv

/-- A present column of a well-formed dataframe has exactly the row count
many cells. -/
theorem colVals_length (df : DataFrame) (n : String) (R : Nat)
    (hwf : ∀ c ∈ df.cols, c.values.length = R) (h : df.hasCol n = true) :
    (df.colVals n).length = R := by
  unfold DataFrame.colVals DataFrame.getCol
  unfold DataFrame.hasCol at h
  rw [List.any_eq_true] at h
  obtain ⟨c, hc, hp⟩ := h
  cases hf : List.find? (fun c => c.name = n) df.cols with
  | none =>
    exact absurd hp (List.find?_eq_none.mp hf c hc)
  | some c0 =>
    exact hwf c0 (List.mem_of_find?_eq_some hf)

/-- C6 counterexample: when the named timestamp column is absent,
`check_business_hours_data` returns a failing ERROR result, so it does not
pass for every dataset and column name. -/
theorem c6_business_hours_counterexample :
    (check_business_hours_data dfNoTs "ts").1.passed = false ∧
    (check_business_hours_data dfNoTs "ts").1.severity = .error := by decide

/-- C6 amended: whenever the timestamp column is present (in a dataframe
with equal-length columns), `check_business_hours_data` passes and reports
the count and percentage of rows whose hour lies in
`[business_start, business_end)` and of rows on a weekend (Monday-indexed
day-of-week at least 5); only a missing timestamp column makes it fail. -/
theorem c6_business_hours_law (df : DataFrame) (ts : String)
    (bs be : Int) (hts : df.hasCol ts = true)
    (hwf : ∀ c ∈ df.cols, c.values.length = df.numRows) :
    (check_business_hours_data df ts bs be).1.passed = true ∧
    (check_business_hours_data df ts bs be).1.getMeta "business_hours_count" =
      some (.int ((df.colVals ts).countP (fun v => match timeOf v with
        | some t => decide (bs ≤ tsHour t ∧ tsHour t < be)
        | none => false))) ∧
    (check_business_hours_data df ts bs be).1.getMeta "business_hours_percentage" =
      some (.float (if df.numRows > 0 then
        (((df.colVals ts).countP (fun v => match timeOf v with
          | some t => decide (bs ≤ tsHour t ∧ tsHour t < be)
          | none => false) : ℚ) / (df.numRows : ℚ)) * 100 else 0)) ∧
    (check_business_hours_data df ts bs be).1.getMeta "weekend_count" =
      some (.int ((df.colVals ts).countP (fun v => match timeOf v with
        | some t => decide (5 ≤ tsWeekday t)
        | none => false))) ∧
    (check_business_hours_data df ts bs be).1.getMeta "weekend_percentage" =
      some (.float (if df.numRows > 0 then
        (((df.colVals ts).countP (fun v => match timeOf v with
          | some t => decide (5 ≤ tsWeekday t)
          | none => false) : ℚ) / (df.numRows : ℚ)) * 100 else 0)) := by
  have hvals : (df.parseDateCol ts).colVals ts = df.colVals ts :=
    parse_colVals df ts ts
  have hlen : (df.colVals ts).length = df.numRows :=
    colVals_length df ts df.numRows hwf hts
  have hrows : ((df.parseDateCol ts).setCol "hour" .int64
      (((df.parseDateCol ts).colVals ts).map hourValOf)).numRows = df.numRows := by
    rw [hvals]
    rw [setCol_numRows]
    · exact parse_numRows df ts
    · rw [List.length_map, parse_numRows df ts]
      exact hlen
  have hbc : ∀ l : List Value, (l.map hourValOf).countP (fun v => match v with
      | .num q => decide ((bs : ℚ) ≤ q ∧ q < (be : ℚ))
      | _ => false) =
      l.countP (fun v => match timeOf v with
        | some t => decide (bs ≤ tsHour t ∧ tsHour t < be)
        | none => false) := by
    intro l
    rw [List.countP_map]
    apply List.countP_congr
    intro v _
    cases v <;> simp only [Function.comp, hourValOf, timeOf] <;>
      try exact Iff.rfl
    simp only [decide_eq_true_eq]
    exact and_congr Int.cast_le Int.cast_lt
  have hwc : ∀ l : List Value, (l.map weekdayValOf).countP (fun v => match v with
      | .num q => decide ((5 : ℚ) ≤ q)
      | _ => false) =
      l.countP (fun v => match timeOf v with
        | some t => decide (5 ≤ tsWeekday t)
        | none => false) := by
    intro l
    rw [List.countP_map]
    apply List.countP_congr
    intro v _
    cases v <;> simp only [Function.comp, weekdayValOf, timeOf] <;>
      try exact Iff.rfl
    simp only [decide_eq_true_eq]
    constructor
    · intro h; exact_mod_cast h
    · intro h; exact_mod_cast h
  unfold check_business_hours_data
  dsimp only
  rw [if_neg (not_not.mpr hts)]
  dsimp only
  rw [hrows, hvals, hbc, hwc]
  exact ⟨rfl, rfl, rfl, rfl, rfl⟩

/-- Witness for `c6_business_hours_law` at the one-row timestamp dataset. -/
theorem c6_business_hours_law_witness :
    dfTs.hasCol "ts" = true ∧
    (∀ c ∈ dfTs.cols, c.values.length = dfTs.numRows) ∧
    (check_business_hours_data dfTs "ts" 9 17).1.passed = true :=
  ⟨by decide, by decide,
   (c6_business_hours_law dfTs "ts" 9 17 (by decide) (by decide)).1⟩

/-- Membership in `Series.unique()`: the first-appearance distinct values
are exactly the values not already seen. -/
theorem mem_pdUnique (x : Value) : ∀ (l seen : List Value),
    x ∈ pdUnique seen l ↔ (x ∈ l ∧ x ∉ seen) := by
  intro l
  induction l with
  | nil => intro seen; simp [pdUnique]
  | cons v vs ih =>
    intro seen
    by_cases hv : v ∈ seen
    · simp only [pdUnique, if_pos hv, ih, List.mem_cons]
      constructor
      · rintro ⟨hx, hns⟩; exact ⟨Or.inr hx, hns⟩
      · rintro ⟨hor, hns⟩
        rcases hor with rfl | hx
        · exact absurd hv hns
        · exact ⟨hx, hns⟩
    · simp only [pdUnique, if_neg hv, List.mem_cons, ih]
      constructor
      · rintro (rfl | ⟨hx, hns⟩)
        · exact ⟨Or.inl rfl, hv⟩
        · exact ⟨Or.inr hx, fun hs => hns (Or.inr hs)⟩
      · rintro ⟨rfl | hx, hns⟩
        · exact Or.inl rfl
        · by_cases hxv : x = v
          · exact Or.inl hxv
          · refine Or.inr ⟨hx, fun hc => ?_⟩
            rcases hc with h1 | h2
            · exact hxv h1
            · exact hns h2

/-- Counting the flags of `Series.duplicated()`: flagged entries plus the
distinct values not yet seen make up the whole column. -/
theorem dupFlags_count (l : List Value) : ∀ seen : List Value,
    ((dupFlags seen l).count true) + (l.toFinset \ seen.toFinset).card
      = l.length := by
  induction l with
  | nil => intro seen; simp [dupFlags]
  | cons v vs ih =>
    intro seen
    by_cases hv : v ∈ seen
    · have h1 : (dupFlags seen (v :: vs)).count true
          = (dupFlags (v :: seen) vs).count true + 1 := by
        simp [dupFlags, hv, List.count_cons]
      have h2 : ((v :: vs).toFinset \ seen.toFinset)
          = vs.toFinset \ (v :: seen).toFinset := by
        rw [List.toFinset_cons, List.toFinset_cons,
          Finset.insert_sdiff_of_mem _ (List.mem_toFinset.mpr hv),
          Finset.insert_eq_self.mpr (List.mem_toFinset.mpr hv)]
      rw [h1, h2]
      have := ih (v :: seen)
      simp only [List.length_cons]
      omega
    · have h1 : (dupFlags seen (v :: vs)).count true
          = (dupFlags (v :: seen) vs).count true := by
        simp [dupFlags, hv, List.count_cons]
      have h2 : ((v :: vs).toFinset \ seen.toFinset).card
          = (vs.toFinset \ (v :: seen).toFinset).card + 1 := by
        rw [List.toFinset_cons, List.toFinset_cons,
          Finset.insert_sdiff_of_not_mem _ (fun hc => hv (List.mem_toFinset.mp hc)),
          Finset.sdiff_insert]
        by_cases hx : v ∈ vs.toFinset \ seen.toFinset
        · rw [Finset.insert_eq_self.mpr hx, Finset.card_erase_of_mem hx]
          have hpos : 0 < (vs.toFinset \ seen.toFinset).card :=
            Finset.card_pos.mpr ⟨v, hx⟩
          omega
        · rw [Finset.card_insert_of_not_mem hx, Finset.erase_eq_of_not_mem hx]
      rw [h1, h2]
      have := ih (v :: seen)
      simp only [List.length_cons]
      omega

/-- Helper: `Series.duplicated().sum()` is invariant under row permutation. -/
theorem dupCount_perm (l l' : List Value) (h : l.Perm l') :
    dupCount l = dupCount l' := by
  have h1 := dupFlags_count l []
  have h2 := dupFlags_count l' []
  have hf : l.toFinset = l'.toFinset := by
    ext x
    simp [List.mem_toFinset, h.mem_iff]
  have hlen := h.length_eq
  unfold dupCount
  simp only [List.toFinset_nil, Finset.sdiff_empty] at h1 h2
  rw [hf] at h1
  omega

/-- Row-permuted dataframes have the same column names. -/
theorem rowPerm_names (d d' : DataFrame) (h : RowPerm d d') :
    d.names = d'.names := by
  obtain ⟨cols⟩ := d
  obtain ⟨cols'⟩ := d'
  unfold RowPerm at h
  change List.Forall₂ _ cols cols' at h
  unfold DataFrame.names
  induction h with
  | nil => rfl
  | cons hr _ ih => simp_all [hr.1]

/-- Row-permuted dataframes have the same row count. -/
theorem rowPerm_numRows (d d' : DataFrame) (h : RowPerm d d') :
    d.numRows = d'.numRows := by
  obtain ⟨cols⟩ := d
  obtain ⟨cols'⟩ := d'
  unfold RowPerm at h
  change List.Forall₂ _ cols cols' at h
  cases h with
  | nil => rfl
  | cons hr _ => exact hr.2.2.length_eq

/-- Row-permuted dataframes hold permuted cell values in every column. -/
theorem rowPerm_colVals (d d' : DataFrame) (h : RowPerm d d') (n : String) :
    (d.colVals n).Perm (d'.colVals n) := by
  obtain ⟨cols⟩ := d
  obtain ⟨cols'⟩ := d'
  unfold RowPerm at h
  change List.Forall₂ _ cols cols' at h
  induction h with
  | nil => exact List.Perm.refl _
  | cons hr htail ih =>
    rename_i a b l₁ l₂
    by_cases hn : a.name = n
    · have hbn : b.name = n := hr.1 ▸ hn
      simp only [DataFrame.colVals, DataFrame.getCol, List.find?_cons, hn, hbn,
        decide_True]
      exact hr.2.2
    · have hbn : ¬ b.name = n := fun hb => hn (hr.1.symm ▸ hb)
      simp only [DataFrame.colVals, DataFrame.getCol, List.find?_cons, hn, hbn,
        decide_False]
      exact ih

/-- Every result of `check_column_values` carries severity ERROR (the
passing branch by the dagster default). -/
theorem sev_column_values (df : DataFrame) (c : String)
    (allowed : List Value) :
    (check_column_values df c allowed).1.severity = .error := by
  unfold check_column_values
  dsimp only
  split <;> rfl

/-- Helper: `check_column_values` passes iff every cell value is allowed. -/
theorem column_values_passed (df : DataFrame) (c : String)
    (allowed : List Value) :
    ((check_column_values df c allowed).1.passed = true ↔
      ∀ v ∈ df.colVals c, v ∈ allowed) := by
  unfold check_column_values
  dsimp only
  split
  · rename_i hne
    constructor
    · intro hx; exact absurd hx Bool.false_ne_true
    · intro hall
      exfalso
      apply hne
      rw [List.filter_eq_nil_iff]
      intro x hx
      have hmem : x ∈ df.colVals c := ((mem_pdUnique x (df.colVals c) []).mp hx).1
      simp [hall x hmem]
  · rename_i hq
    have heq := not_not.mp hq
    constructor
    · intro _ v hv
      have hvu : v ∈ pdUnique [] (df.colVals c) :=
        (mem_pdUnique v (df.colVals c) []).mpr ⟨hv, by simp⟩
      have := List.filter_eq_nil_iff.mp heq v hvu
      simpa using this
    · intro _; rfl

/-- C9 counterexample: `check_column_values` lists the distinct values in
first-appearance order, so its full result differs between two row orders
of the same dataset. -/
theorem c9_row_order_counterexample :
    RowPerm dfP1 dfP2 ∧
    (check_column_values dfP1 "c" []).1 ≠ (check_column_values dfP2 "c" []).1 := by
  constructor
  · exact List.Forall₂.cons ⟨rfl, rfl, by decide⟩ List.Forall₂.nil
  · decide

/-- C9 amended: `check_no_nulls` and `check_unique_values` return identical
results on row-permuted datasets, and `check_column_values` returns the
same verdict and severity, but its description/metadata may list the
distinct values in a different (first-appearance) order. -/
theorem c9_row_order_law (d d' : DataFrame) (h : RowPerm d d') :
    (∀ columns, (check_no_nulls d columns).1 = (check_no_nulls d' columns).1) ∧
    (∀ columns,
      (check_unique_values d columns).1 = (check_unique_values d' columns).1) ∧
    (∀ column allowed,
      (check_column_values d column allowed).1.passed =
        (check_column_values d' column allowed).1.passed ∧
      (check_column_values d column allowed).1.severity =
        (check_column_values d' column allowed).1.severity) := by
  have hrows := rowPerm_numRows d d' h
  have hvals := fun n => rowPerm_colVals d d' h n
  refine ⟨fun columns => ?_, fun columns => ?_, fun column allowed => ?_⟩
  · have hcounts : (fun c => (c, nullCount (d.colVals c)))
        = fun c => (c, nullCount (d'.colVals c)) :=
      funext fun c => by rw [nullCount, nullCount, (hvals c).count_eq]
    unfold check_no_nulls
    dsimp only
    rw [hcounts, hrows]
    split <;> rfl
  · have hcounts : (fun c => (c, dupCount (d.colVals c)))
        = fun c => (c, dupCount (d'.colVals c)) :=
      funext fun c => by rw [dupCount_perm _ _ (hvals c)]
    unfold check_unique_values
    dsimp only
    rw [hcounts, hrows]
    split <;> rfl
  · refine ⟨?_, by rw [sev_column_values, sev_column_values]⟩
    have h1 := column_values_passed d column allowed
    have h2 := column_values_passed d' column allowed
    have hiff : (∀ v ∈ d.colVals column, v ∈ allowed) ↔
        (∀ v ∈ d'.colVals column, v ∈ allowed) := by
      constructor
      · intro ha v hv; exact ha v ((hvals column).mem_iff.mpr hv)
      · intro ha v hv; exact ha v ((hvals column).mem_iff.mp hv)
    by_cases hp : (check_column_values d column allowed).1.passed = true
    · exact hp.trans (h2.mpr (hiff.mp (h1.mp hp))).symm
    · have hq : ¬ (check_column_values d' column allowed).1.passed = true :=
        fun hq => hp (h1.mpr (hiff.mpr (h2.mp hq)))
      rw [Bool.eq_false_iff.mpr hp, Bool.eq_false_iff.mpr hq]

/-- Witness for `c9_row_order_law` at the swapped-row datasets. -/
theorem c9_row_order_law_witness :
    RowPerm dfP1 dfP2 ∧
    (check_no_nulls dfP1 ["c"]).1 = (check_no_nulls dfP2 ["c"]).1 := by
  have hperm : RowPerm dfP1 dfP2 :=
    List.Forall₂.cons ⟨rfl, rfl, by decide⟩ List.Forall₂.nil
  exact ⟨hperm, (c9_row_order_law dfP1 dfP2 hperm).1 ["c"]⟩

/-- C7: across every check in the engine, a failing result never has the
observational INFO severity — each failing construction carries WARN or
ERROR explicitly. -/
theorem c7_failed_never_info :
    (∀ df columns, (check_no_nulls df columns).1.passed = false →
      (check_no_nulls df columns).1.severity ≠ .info) ∧
    (∀ df columns, (check_unique_values df columns).1.passed = false →
      (check_unique_values df columns).1.severity ≠ .info) ∧
    (∀ df mn mx, (check_row_count df mn mx).1.passed = false →
      (check_row_count df mn mx).1.severity ≠ .info) ∧
    (∀ df column allowed, (check_column_values df column allowed).1.passed = false →
      (check_column_values df column allowed).1.severity ≠ .info) ∧
    (∀ df column mn mx, (check_numeric_range df column mn mx).1.passed = false →
      (check_numeric_range df column mn mx).1.severity ≠ .info) ∧
    (∀ df column mn mx, (check_date_range df column mn mx).1.passed = false →
      (check_date_range df column mn mx).1.severity ≠ .info) ∧
    (∀ df ts mah ct, (check_data_freshness df ts mah ct).1.passed = false →
      (check_data_freshness df ts mah ct).1.severity ≠ .info) ∧
    (∀ df ts ef, (check_update_frequency df ts ef).1.passed = false →
      (check_update_frequency df ts ef).1.severity ≠ .info) ∧
    (∀ df ts bs be, (check_business_hours_data df ts bs be).1.passed = false →
      (check_business_hours_data df ts bs be).1.severity ≠ .info) ∧
    (∀ df ts ei, (check_data_continuity df ts ei).1.passed = false →
      (check_data_continuity df ts ei).1.severity ≠ .info) ∧
    (∀ df required, (check_required_columns df required).1.passed = false →
      (check_required_columns df required).1.severity ≠ .info) ∧
    (∀ df types, (check_column_types df types).1.passed = false →
      (check_column_types df types).1.severity ≠ .info) ∧
    (∀ df allowed, (check_no_extra_columns df allowed).1.passed = false →
      (check_no_extra_columns df allowed).1.severity ≠ .info) ∧
    (∀ df expected, (check_column_order df expected).1.passed = false →
      (check_column_order df expected).1.severity ≠ .info) ∧
    (∀ df schema, (validate_schema df schema).1.passed = false →
      (validate_schema df schema).1.severity ≠ .info) := by
  refine ⟨?_, ?_, ?_, ?_, ?_, ?_, ?_, ?_, ?_, ?_, ?_, ?_, ?_, ?_, ?_⟩
  · intro df columns _
    unfold check_no_nulls; dsimp only; split <;> simp
  · intro df columns _
    unfold check_unique_values; dsimp only; split <;> simp
  · intro df mn mx _
    unfold check_row_count; dsimp only
    (repeat' split) <;> simp
  · intro df column allowed _
    unfold check_column_values; dsimp only; split <;> simp
  · intro df column mn mx _
    unfold check_numeric_range
    dsimp only
    cases mn with
    | some m =>
      by_cases hb : countBelow (df.colVals column) m > 0
      · simp [hb, numericBelowRes]
      · cases mx with
        | some mx2 =>
          by_cases ha : countAbove (df.colVals column) mx2 > 0
          · simp [hb, ha, numericAboveRes]
          · simp [hb, ha, numericPassRes]
        | none => simp [hb, numericPassRes]
    | none =>
      cases mx with
      | some mx2 =>
        by_cases ha : countAbove (df.colVals column) mx2 > 0
        · simp [ha, numericAboveRes]
        · simp [ha, numericPassRes]
      | none => simp [numericPassRes]
  · intro df column mn mx _
    unfold check_date_range
    dsimp only
    cases mn with
    | some m =>
      by_cases hb : tsCountBefore ((df.parseDateCol column).colVals column) m > 0
      · simp [hb, dateBeforeRes]
      · cases mx with
        | some mx2 =>
          by_cases ha : tsCountAfter ((df.parseDateCol column).colVals column) mx2 > 0
          · simp [hb, ha, dateAfterRes]
          · simp [hb, ha, datePassRes]
        | none => simp [hb, datePassRes]
    | none =>
      cases mx with
      | some mx2 =>
        by_cases ha : tsCountAfter ((df.parseDateCol column).colVals column) mx2 > 0
        · simp [ha, dateAfterRes]
        · simp [ha, datePassRes]
      | none => simp [datePassRes]
  · intro df ts mah ct _
    unfold check_data_freshness; dsimp only
    (repeat' split) <;> simp [missingTsColRes]
  · intro df ts ef _
    unfold check_update_frequency; dsimp only
    (repeat' split) <;> simp [missingTsColRes]
  · intro df ts bs be _
    unfold check_business_hours_data; dsimp only
    (repeat' split) <;> simp [missingTsColRes]
  · intro df ts ei _
    unfold check_data_continuity; dsimp only
    (repeat' split) <;> simp [missingTsColRes]
  · intro df required _
    unfold check_required_columns; dsimp only; split <;> simp
  · intro df types _
    unfold check_column_types; dsimp only; split <;> simp
  · intro df allowed _
    unfold check_no_extra_columns; dsimp only; split <;> simp
  · intro df expected _
    unfold check_column_order; dsimp only; split <;> simp
  · intro df schema _
    unfold validate_schema; dsimp only; split <;> simp

/-- Witness for `c7_failed_never_info`: the scenario A null-email dataset
fails `check_no_nulls` with a severity other than INFO. -/
theorem c7_failed_never_info_witness :
    (check_no_nulls dfScenA ["email"]).1.passed = false ∧
    (check_no_nulls dfScenA ["email"]).1.severity ≠ .info :=
  ⟨by decide, c7_failed_never_info.1 dfScenA ["email"] (by decide)⟩
